import Mathlib

/-!
# Verification of `exmg-paper-tooltip`

A shallow embedding of `src/exmg-paper-tooltip.js`: a hover/focus tooltip
component with target resolution, a show/hide visibility state machine,
and a position calculator (`updatePosition`).

Pixel quantities are modelled as rationals (`ℚ`), since the placement
arithmetic divides by 2. CSS inline-style properties are modelled as
`Option StyleVal` (`none` = never assigned); assigning an invalid CSS
string (the result of concatenating JavaScript `undefined`/`NaN` with
`'px'`) is a no-op on the style, as in the CSSOM.
-/

namespace ExmgTooltip

/-- A bounding rectangle, as returned by `getBoundingClientRect()`. -/
structure Rect where
  left : ℚ
  top : ℚ
  width : ℚ
  height : ℚ
deriving DecidableEq, Repr

/-- The value held by one inline-style placement property. -/
inductive StyleVal
  | px : ℚ → StyleVal
  | auto : StyleVal
deriving DecidableEq, Repr

/-- The four inline-style placement properties of the tooltip host element.
`none` means the property has never been assigned a valid value. -/
structure Styles where
  left : Option StyleVal
  top : Option StyleVal
  right : Option StyleVal
  bottom : Option StyleVal
deriving DecidableEq, Repr

/-- All placement properties unset, as on a freshly created element. -/
def Styles.initial : Styles := ⟨none, none, none, none⟩

/-- The layout environment `updatePosition` reads from the DOM:
`this._target` and `this.offsetParent` (either may be absent), the
tooltip's own bounding rect, and the viewport size
(`window.innerWidth` / `window.innerHeight`). -/
structure Env where
  target : Option Rect
  offsetParent : Option Rect
  thisRect : Rect
  innerWidth : ℚ
  innerHeight : ℚ
deriving DecidableEq, Repr

/-- The `switch (this.position)` block of `updatePosition`
(src/exmg-paper-tooltip.js lines 251-276), together with the relative
and centering offsets it consumes.  A `switch` with no `default` leaves
`tooltipLeft` / `tooltipTop` undefined on an unrecognized position,
modelled as `none`. -/
def computePlacement (position : String) (targetRect parentRect thisRect : Rect)
    (offset : ℚ) : Option (ℚ × ℚ) :=
  let horizontalCenterOffset := (targetRect.width - thisRect.width) / 2
  let verticalCenterOffset := (targetRect.height - thisRect.height) / 2
  let targetLeft := targetRect.left - parentRect.left
  let targetTop := targetRect.top - parentRect.top
  if position = "top" then
    some (targetLeft + horizontalCenterOffset, targetTop - thisRect.height - offset)
  else if position = "bottom" then
    some (targetLeft + horizontalCenterOffset, targetTop + targetRect.height + offset)
  else if position = "left" then
    some (targetLeft - thisRect.width - offset, targetTop + verticalCenterOffset)
  else if position = "right" then
    some (targetLeft + targetRect.width + offset, targetTop + verticalCenterOffset)
  else
    none

/-- `updatePosition()` (src/exmg-paper-tooltip.js lines 241-302).

Guard: returns immediately when `this._target` or `this.offsetParent`
is absent. When the position is unrecognized, `tooltipLeft` and
`tooltipTop` are JavaScript `undefined`: the clip conditions compare
`NaN` (always false), `Math.max(0, undefined)` is `NaN`, and assigning
`'NaNpx'` / `'undefinedpx'` to a style property is ignored, while the
accompanying `'auto'` / `'0px'` assignments are valid and do land. -/
def updatePosition (position : String) (offset : ℚ) (fitToVisibleBounds : Bool)
    (env : Env) (st : Styles) : Styles :=
  match env.target, env.offsetParent with
  | some targetRect, some parentRect =>
    let thisRect := env.thisRect
    let placed := computePlacement position targetRect parentRect thisRect offset
    if fitToVisibleBounds then
      -- Clip the left/right side
      let st1 :=
        match placed with
        | some tl =>
          if parentRect.left + tl.1 + thisRect.width > env.innerWidth then
            { st with right := some (StyleVal.px 0), left := some StyleVal.auto }
          else
            { st with left := some (StyleVal.px (max 0 tl.1)), right := some StyleVal.auto }
        | none =>
          -- NaN comparison is false; `Math.max(0, NaN) + 'px'` is invalid and ignored
          { st with right := some StyleVal.auto }
      -- Clip the top/bottom side
      match placed with
      | some tl =>
        if parentRect.top + tl.2 + thisRect.height > env.innerHeight then
          { st1 with bottom := some (StyleVal.px parentRect.height), top := some StyleVal.auto }
        else
          { st1 with top := some (StyleVal.px (max (-parentRect.top) tl.2)), bottom := some StyleVal.auto }
      | none =>
        { st1 with bottom := some StyleVal.auto }
    else
      match placed with
      | some tl => { st with left := some (StyleVal.px tl.1), top := some (StyleVal.px tl.2) }
      | none => st
  | _, _ => st

/-- The tooltip's mutable visual state: the `_showing` flag, whether the
inner `#tooltip` box carries the `hidden` class, and the host's inline
placement styles. -/
structure TState where
  showing : Bool
  hiddenClass : Bool
  styles : Styles
deriving DecidableEq, Repr

/-- The initial state: not showing, box hidden (`class="hidden"` in the
template), no placement styles applied. -/
def TState.initial : TState := ⟨false, true, Styles.initial⟩

/-- The tooltip is in the `Hidden` state of the visibility state machine. -/
def TState.Hidden (st : TState) : Prop := st.showing = false ∧ st.hiddenClass = true

instance (st : TState) : Decidable st.Hidden := by
  unfold TState.Hidden
  infer_instance

/-- JavaScript `String.prototype.trim`: strip leading and trailing
whitespace.  (Defined over the character list so it is kernel-reducible.) -/
def jsTrim (s : String) : String :=
  ⟨((s.data.dropWhile Char.isWhitespace).reverse.dropWhile Char.isWhitespace).reverse⟩

/-- The empty-content guard of `show()` (src/exmg-paper-tooltip.js lines
192-205): the tooltip's own `textContent` trims to empty and so does the
`textContent` of every effective (distributed/slotted) child node. -/
def contentEmpty (ownText : String) (childTexts : List String) : Bool :=
  jsTrim ownText == "" && childTexts.all (fun s => jsTrim s == "")

/-- `show()` (src/exmg-paper-tooltip.js lines 187-210): no-op while
already showing; suppressed when the content is empty; otherwise sets
`_showing`, removes the `hidden` class from the box, and recomputes the
position. -/
def showTooltip (position : String) (offset : ℚ) (fitToVisibleBounds : Bool)
    (env : Env) (ownText : String) (childTexts : List String) (st : TState) : TState :=
  if st.showing then st
  else if contentEmpty ownText childTexts then st
  else
    let st2 : TState := { st with showing := true, hiddenClass := false }
    { st2 with styles := updatePosition position offset fitToVisibleBounds env st2.styles }

/-- `hide()` (src/exmg-paper-tooltip.js lines 232-239): no-op while
already hidden; otherwise clears `_showing` and restores the `hidden`
class.  The placement styles are not touched. -/
def hideTooltip (st : TState) : TState :=
  if !st.showing then st
  else { st with showing := false, hiddenClass := true }

/-! ## Target resolution and listener wiring -/

/-- The DOM events the component listens for. -/
inductive DomEvent
  | mouseenter
  | focus
  | mouseleave
  | blur
  | tap
deriving DecidableEq, Repr

/-- The two bound handlers, `this._boundShow` and `this._boundHide`. -/
inductive Handler
  | boundShow
  | boundHide
deriving DecidableEq, Repr

/-- One event registration: which element, which event, which handler. -/
abbrev Registration := Nat × DomEvent × Handler

/-- `addEventListener` semantics: registering the same
(element, event, handler) triple twice is a no-op. -/
def addEventListener (e : Nat) (ev : DomEvent) (h : Handler)
    (regs : List Registration) : List Registration :=
  if (e, ev, h) ∈ regs then regs else regs ++ [(e, ev, h)]

/-- `removeEventListener` semantics: the matching registration, if any,
is removed. -/
def removeEventListener (e : Nat) (ev : DomEvent) (h : Handler)
    (regs : List Registration) : List Registration :=
  regs.filter (fun r => r ≠ (e, ev, h))

/-- The five (event, handler) pairs `_addListeners` installs on the
anchor (src/exmg-paper-tooltip.js lines 306-310). -/
def targetEventHandlers : List (DomEvent × Handler) :=
  [(DomEvent.mouseenter, Handler.boundShow), (DomEvent.focus, Handler.boundShow),
   (DomEvent.mouseleave, Handler.boundHide), (DomEvent.blur, Handler.boundHide),
   (DomEvent.tap, Handler.boundHide)]

/-- The anchoring state: the current `this._target` (by element id) and
the set of live event registrations; `selfId` identifies the tooltip
element itself. -/
structure AnchorState where
  target : Option Nat
  regs : List Registration
deriving DecidableEq, Repr

/-- `_addListeners()` (src/exmg-paper-tooltip.js lines 304-313). -/
def addListeners (selfId : Nat) (st : AnchorState) : AnchorState :=
  let regs1 :=
    match st.target with
    | some t => targetEventHandlers.foldl (fun acc p => addEventListener t p.1 p.2 acc) st.regs
    | none => st.regs
  { st with regs := addEventListener selfId DomEvent.mouseenter Handler.boundHide regs1 }

/-- `_removeListeners()` (src/exmg-paper-tooltip.js lines 322-331). -/
def removeListeners (selfId : Nat) (st : AnchorState) : AnchorState :=
  let regs1 :=
    match st.target with
    | some t => targetEventHandlers.foldl (fun acc p => removeEventListener t p.1 p.2 acc) st.regs
    | none => st.regs
  { st with regs := removeEventListener selfId DomEvent.mouseenter Handler.boundHide regs1 }

/-- A node that can serve as `this.parentNode`: whether it is a document
fragment, the fragment's `host` (absent for a plain fragment), and the
node's own element id. -/
structure ParentNode where
  isFragment : Bool
  fragmentHost : Option Nat
  elem : Nat
deriving DecidableEq, Repr

/-- The `target` getter (src/exmg-paper-tooltip.js lines 153-167).
`rootIds` is the id table of `ownerRoot` consulted by
`querySelector('#' + this.for)`.  When `this.parentNode` is null the
very first statement, `parentNode.getRootNode()`, throws a `TypeError`,
modelled as `Except.error`. -/
def resolveTarget (forAttr : Option String) (rootIds : List (String × Nat))
    (parentNode : Option ParentNode) : Except Unit (Option Nat) :=
  match parentNode with
  | none => Except.error ()
  | some p =>
    let hasFor := match forAttr with | some s => s != "" | none => false
    if hasFor then
      Except.ok ((rootIds.find? (fun q => q.1 = forAttr.getD "")).map (fun q => q.2))
    else
      Except.ok (if p.isFragment then p.fragmentHost else some p.elem)

/-- `_findTarget()` (src/exmg-paper-tooltip.js lines 315-320): remove
the listeners from the old anchor, store the newly resolved target,
attach listeners to it.  `newTarget` is the result of the `target`
getter. -/
def findTarget (selfId : Nat) (newTarget : Option Nat) (st : AnchorState) : AnchorState :=
  let st1 := removeListeners selfId st
  addListeners selfId { st1 with target := newTarget }

/-- The lifecycle callback names this class defines (besides the
constructor): `connectedCallback` at line 175 and `disconnectCallback`
at line 182 of src/exmg-paper-tooltip.js. -/
def definedLifecycleCallbacks : List String :=
  ["connectedCallback", "disconnectCallback"]

/-- Modelled from the custom elements lifecycle contract the class
subscribes to (it extends `PolymerElement`, a custom element): on
removal from the document the platform invokes the method named
`"disconnectedCallback"` when the class defines one, and does nothing
otherwise.  The body the source intends to run is `_removeListeners`. -/
def detachFromDom (selfId : Nat) (st : AnchorState) : AnchorState :=
  if "disconnectedCallback" ∈ definedLifecycleCallbacks then
    removeListeners selfId st
  else
    st

/-- The registrations that are live after `_addListeners` runs on a
fresh element for anchor `target`: the five anchor registrations plus
the tooltip's own `mouseenter -> _boundHide`. -/
def canonicalRegs (selfId : Nat) (target : Option Nat) : List Registration :=
  (match target with
   | some t => targetEventHandlers.map (fun p => (t, p.1, p.2))
   | none => []) ++ [(selfId, DomEvent.mouseenter, Handler.boundHide)]

/-! ## Spec-side definitions (§4.3 of the specification) -/

/-- §4.3, horizontal clamp, written from the spec's words: given
`parentRect.left`, the computed `left`, the tooltip width and the
viewport width, return the `(left, right)` style pair.  It mentions no
vertical quantity. -/
def horizClamp (pLeft l w innerW : ℚ) : Option StyleVal × Option StyleVal :=
  if pLeft + l + w > innerW then (some StyleVal.auto, some (StyleVal.px 0))
  else (some (StyleVal.px (max 0 l)), some StyleVal.auto)

/-- §4.3, vertical clamp, written from the spec's words: given
`parentRect.top`, the computed `top`, the tooltip height, the viewport
height and `parentRect.height`, return the `(top, bottom)` style pair.
It mentions no horizontal quantity. -/
def vertClamp (pTop t h innerH pHeight : ℚ) : Option StyleVal × Option StyleVal :=
  if pTop + t + h > innerH then (some StyleVal.auto, some (StyleVal.px pHeight))
  else (some (StyleVal.px (max (-pTop) t)), some StyleVal.auto)

/-- With both rectangles available and a computed placement, the
`fitToVisibleBounds` branch of `updatePosition` is exactly the two
independent per-axis clamps. -/
lemma updatePosition_fit_eq (pos : String) (off : ℚ) (env : Env) (st : Styles)
    (tr pr : Rect) (l t : ℚ) (hT : env.target = some tr) (hP : env.offsetParent = some pr)
    (hp : computePlacement pos tr pr env.thisRect off = some (l, t)) :
    updatePosition pos off true env st =
      { st with
        left := (horizClamp pr.left l env.thisRect.width env.innerWidth).1,
        right := (horizClamp pr.left l env.thisRect.width env.innerWidth).2,
        top := (vertClamp pr.top t env.thisRect.height env.innerHeight pr.height).1,
        bottom := (vertClamp pr.top t env.thisRect.height env.innerHeight pr.height).2 } := by
  simp only [updatePosition, hT, hP, hp, horizClamp, vertClamp]
  split_ifs <;> rfl

/-- The concrete scenario of §8: anchor `{left:100, top:50, width:80,
height:20}`, tooltip `60 × 24`, offset parent at the origin. -/
def scenarioEnv : Env :=
  ⟨some ⟨100, 50, 80, 20⟩, some ⟨0, 0, 300, 200⟩, ⟨0, 0, 60, 24⟩, 1000, 1000⟩

/-! ## Claims -/

/-- C1: for every anchor, tooltip and offset-parent rectangle and every
offset distance, the placement computed for each of the four sides is
exactly the §4.3 arithmetic (relative anchor position, centering
offsets, per-side left/top formulas); and on the concrete scenario
(anchor `{left:100, top:50, width:80, height:20}`, tooltip `60 × 24`,
parent at origin, side `bottom`, offset 14) `updatePosition` applies
`left = 110px` and `top = 84px`. -/
theorem updatePosition_matches_spec_arithmetic (tr pr s : Rect) (off : ℚ) :
    (computePlacement "top" tr pr s off =
      some (tr.left - pr.left + (tr.width - s.width) / 2,
            tr.top - pr.top - s.height - off)) ∧
    (computePlacement "bottom" tr pr s off =
      some (tr.left - pr.left + (tr.width - s.width) / 2,
            tr.top - pr.top + tr.height + off)) ∧
    (computePlacement "left" tr pr s off =
      some (tr.left - pr.left - s.width - off,
            tr.top - pr.top + (tr.height - s.height) / 2)) ∧
    (computePlacement "right" tr pr s off =
      some (tr.left - pr.left + tr.width + off,
            tr.top - pr.top + (tr.height - s.height) / 2)) ∧
    updatePosition "bottom" 14 false scenarioEnv Styles.initial =
      { Styles.initial with left := some (StyleVal.px 110), top := some (StyleVal.px 84) } := by
  refine ⟨by simp [computePlacement], by simp [computePlacement], by simp [computePlacement],
    by simp [computePlacement], ?_⟩
  simp [updatePosition, computePlacement, scenarioEnv, Styles.initial]
  norm_num

/-- C2: with `fitToVisibleBounds` true, `updatePosition` clamps each
axis independently: the `(left, right)` outcome is exactly the spec's
horizontal clamp (right = 0 / left auto when overflowing, otherwise
left = max(0, computed) / right auto), the `(top, bottom)` outcome is
exactly the spec's vertical clamp (bottom = parentRect.height / top
auto when overflowing, otherwise top = max(-parentRect.top, computed) /
bottom auto), and each clamp is a function of its own axis's inputs
only. -/
theorem updatePosition_fit_clamps_independently (pos : String) (off : ℚ) (env : Env)
    (st : Styles) (tr pr : Rect) (l t : ℚ)
    (hT : env.target = some tr) (hP : env.offsetParent = some pr)
    (hp : computePlacement pos tr pr env.thisRect off = some (l, t)) :
    ((updatePosition pos off true env st).left, (updatePosition pos off true env st).right) =
      horizClamp pr.left l env.thisRect.width env.innerWidth ∧
    ((updatePosition pos off true env st).top, (updatePosition pos off true env st).bottom) =
      vertClamp pr.top t env.thisRect.height env.innerHeight pr.height := by
  rw [updatePosition_fit_eq pos off env st tr pr l t hT hP hp]
  exact ⟨rfl, rfl⟩

/-- Witness for C2: the clipped-right-edge scenario of §8 (viewport
width 150, so `0 + 110 + 60 > 150`). -/
theorem updatePosition_fit_clamps_independently_witness :
    ({ scenarioEnv with innerWidth := 150 } : Env).target = some ⟨100, 50, 80, 20⟩ ∧
    ({ scenarioEnv with innerWidth := 150 } : Env).offsetParent = some ⟨0, 0, 300, 200⟩ ∧
    computePlacement "bottom" ⟨100, 50, 80, 20⟩ ⟨0, 0, 300, 200⟩
      ({ scenarioEnv with innerWidth := 150 } : Env).thisRect 14 = some (110, 84) ∧
    (((updatePosition "bottom" 14 true { scenarioEnv with innerWidth := 150 } Styles.initial).left,
      (updatePosition "bottom" 14 true { scenarioEnv with innerWidth := 150 } Styles.initial).right) =
        horizClamp 0 110 60 150 ∧
     ((updatePosition "bottom" 14 true { scenarioEnv with innerWidth := 150 } Styles.initial).top,
      (updatePosition "bottom" 14 true { scenarioEnv with innerWidth := 150 } Styles.initial).bottom) =
        vertClamp 0 84 24 1000 200) := by
  refine ⟨rfl, rfl, by simp [computePlacement, scenarioEnv]; norm_num, ?_⟩
  exact updatePosition_fit_clamps_independently "bottom" 14
    { scenarioEnv with innerWidth := 150 } Styles.initial ⟨100, 50, 80, 20⟩ ⟨0, 0, 300, 200⟩
    110 84 rfl rfl (by simp [computePlacement, scenarioEnv]; norm_num)

/-- C10: with `fitToVisibleBounds` true, a resolved anchor, an offset
parent and a recognized side, `updatePosition` leaves exactly one of
left/right set to a pixel length and the other `auto`, and exactly one
of top/bottom set to a pixel length and the other `auto`. -/
theorem updatePosition_fit_one_axis_property_constrained (pos : String) (off : ℚ) (env : Env)
    (st : Styles) (tr pr : Rect) (l t : ℚ)
    (hT : env.target = some tr) (hP : env.offsetParent = some pr)
    (hp : computePlacement pos tr pr env.thisRect off = some (l, t)) :
    (((updatePosition pos off true env st).left = some StyleVal.auto ∧
      (∃ q, (updatePosition pos off true env st).right = some (StyleVal.px q))) ∨
     ((∃ q, (updatePosition pos off true env st).left = some (StyleVal.px q)) ∧
      (updatePosition pos off true env st).right = some StyleVal.auto)) ∧
    (((updatePosition pos off true env st).top = some StyleVal.auto ∧
      (∃ q, (updatePosition pos off true env st).bottom = some (StyleVal.px q))) ∨
     ((∃ q, (updatePosition pos off true env st).top = some (StyleVal.px q)) ∧
      (updatePosition pos off true env st).bottom = some StyleVal.auto)) := by
  rw [updatePosition_fit_eq pos off env st tr pr l t hT hP hp]
  constructor
  · unfold horizClamp
    split_ifs
    · exact Or.inl ⟨rfl, 0, rfl⟩
    · exact Or.inr ⟨⟨max 0 l, rfl⟩, rfl⟩
  · unfold vertClamp
    split_ifs
    · exact Or.inl ⟨rfl, pr.height, rfl⟩
    · exact Or.inr ⟨⟨max (-pr.top) t, rfl⟩, rfl⟩

/-- Witness for C10: the default scenario with `fitToVisibleBounds`
true and a roomy viewport. -/
theorem updatePosition_fit_one_axis_property_constrained_witness :
    scenarioEnv.target = some ⟨100, 50, 80, 20⟩ ∧
    scenarioEnv.offsetParent = some ⟨0, 0, 300, 200⟩ ∧
    computePlacement "bottom" ⟨100, 50, 80, 20⟩ ⟨0, 0, 300, 200⟩ scenarioEnv.thisRect 14 =
      some (110, 84) ∧
    ((((updatePosition "bottom" 14 true scenarioEnv Styles.initial).left = some StyleVal.auto ∧
       (∃ q, (updatePosition "bottom" 14 true scenarioEnv Styles.initial).right = some (StyleVal.px q))) ∨
      ((∃ q, (updatePosition "bottom" 14 true scenarioEnv Styles.initial).left = some (StyleVal.px q)) ∧
       (updatePosition "bottom" 14 true scenarioEnv Styles.initial).right = some StyleVal.auto)) ∧
     (((updatePosition "bottom" 14 true scenarioEnv Styles.initial).top = some StyleVal.auto ∧
       (∃ q, (updatePosition "bottom" 14 true scenarioEnv Styles.initial).bottom = some (StyleVal.px q))) ∨
      ((∃ q, (updatePosition "bottom" 14 true scenarioEnv Styles.initial).top = some (StyleVal.px q)) ∧
       (updatePosition "bottom" 14 true scenarioEnv Styles.initial).bottom = some StyleVal.auto))) := by
  refine ⟨rfl, rfl, by simp [computePlacement, scenarioEnv]; norm_num, ?_⟩
  exact updatePosition_fit_one_axis_property_constrained "bottom" 14 scenarioEnv Styles.initial
    ⟨100, 50, 80, 20⟩ ⟨0, 0, 300, 200⟩ 110 84 rfl rfl
    (by simp [computePlacement, scenarioEnv]; norm_num)

/-- C3: when the tooltip's own text and every distributed child's text
are empty after trimming, `show()` performs no transition: the whole
state — showing flag, hidden class, placement styles — is unchanged,
so in particular a Hidden state stays Hidden and no position
recomputation lands. -/
theorem show_suppressed_on_empty_content (pos : String) (off : ℚ) (fit : Bool)
    (env : Env) (ownText : String) (childTexts : List String) (st : TState)
    (h : contentEmpty ownText childTexts = true) :
    showTooltip pos off fit env ownText childTexts st = st := by
  simp [showTooltip, h]

/-- Witness for C3: whitespace-only own text and children, from the
initial Hidden state. -/
theorem show_suppressed_on_empty_content_witness :
    contentEmpty " \n" ["", "  "] = true ∧
    showTooltip "bottom" 14 false scenarioEnv " \n" ["", "  "] TState.initial = TState.initial :=
  ⟨by decide,
   show_suppressed_on_empty_content "bottom" 14 false scenarioEnv " \n" ["", "  "]
     TState.initial (by decide)⟩

/-- C4: `show()` in the Showing state and `hide()` in the Hidden state
are no-ops (state, hidden class and placement styles unchanged), and
from every starting state calling `show()` twice equals calling it
once.  (`show` registers no listeners at all, so no duplicate
registration can arise, and the early return skips the second position
recomputation.) -/
theorem show_hide_idempotent (pos : String) (off : ℚ) (fit : Bool) (env : Env)
    (ownText : String) (childTexts : List String) (st : TState) :
    showTooltip pos off fit env ownText childTexts { st with showing := true } =
      { st with showing := true } ∧
    hideTooltip { st with showing := false } = { st with showing := false } ∧
    showTooltip pos off fit env ownText childTexts
        (showTooltip pos off fit env ownText childTexts st) =
      showTooltip pos off fit env ownText childTexts st := by
  refine ⟨by simp [showTooltip], by simp [hideTooltip], ?_⟩
  by_cases h1 : st.showing
  · simp [showTooltip, h1]
  · by_cases h2 : contentEmpty ownText childTexts
    · simp [showTooltip, h1, h2]
    · simp [showTooltip, h1, h2]

/-- C9: from any Hidden state, `show()` followed immediately by
`hide()` restores the pre-show hidden visual state: the showing flag is
false and the box carries the hidden class again. -/
theorem show_then_hide_restores_hidden (pos : String) (off : ℚ) (fit : Bool)
    (env : Env) (ownText : String) (childTexts : List String) (st : TState)
    (h : st.Hidden) :
    (hideTooltip (showTooltip pos off fit env ownText childTexts st)).showing = false ∧
    (hideTooltip (showTooltip pos off fit env ownText childTexts st)).hiddenClass = true := by
  obtain ⟨h1, h2⟩ := h
  by_cases hc : contentEmpty ownText childTexts
  · simp [showTooltip, hideTooltip, h1, h2, hc]
  · simp [showTooltip, hideTooltip, h1, h2, hc]

/-- Witness for C9: the initial Hidden state with nonempty content. -/
theorem show_then_hide_restores_hidden_witness :
    TState.initial.Hidden ∧
    ((hideTooltip (showTooltip "bottom" 14 false scenarioEnv "tip" [] TState.initial)).showing = false ∧
     (hideTooltip (showTooltip "bottom" 14 false scenarioEnv "tip" [] TState.initial)).hiddenClass = true) :=
  ⟨by decide,
   show_then_hide_restores_hidden "bottom" 14 false scenarioEnv "tip" [] TState.initial (by decide)⟩

/-- C5: a requested side outside {top, bottom, left, right} yields no
computed placement (the `switch` has no default), and no placement
value is applied: left and top are untouched, and right/bottom are
either untouched or merely reset to `auto` — never set to a length. -/
theorem unrecognized_position_no_placement (pos : String)
    (hpos : pos ≠ "top" ∧ pos ≠ "bottom" ∧ pos ≠ "left" ∧ pos ≠ "right")
    (off : ℚ) (fit : Bool) (env : Env) (st : Styles) :
    (∀ tr pr s, computePlacement pos tr pr s off = none) ∧
    (updatePosition pos off fit env st).left = st.left ∧
    (updatePosition pos off fit env st).top = st.top ∧
    ((updatePosition pos off fit env st).right = st.right ∨
      (updatePosition pos off fit env st).right = some StyleVal.auto) ∧
    ((updatePosition pos off fit env st).bottom = st.bottom ∨
      (updatePosition pos off fit env st).bottom = some StyleVal.auto) := by
  obtain ⟨hp1, hp2, hp3, hp4⟩ := hpos
  have hnone : ∀ tr pr s, computePlacement pos tr pr s off = none := by
    intro tr pr s
    simp [computePlacement, hp1, hp2, hp3, hp4]
  refine ⟨hnone, ?_⟩
  obtain ⟨tgt, op, this0, iw, ih⟩ := env
  cases tgt with
  | none => cases op <;> simp [updatePosition]
  | some tr =>
    cases op with
    | none => simp [updatePosition]
    | some pr =>
      cases fit <;> simp [updatePosition, hnone]

/-- Witness for C5: the unrecognized side `"middle"` with
`fitToVisibleBounds` true. -/
theorem unrecognized_position_no_placement_witness :
    ("middle" ≠ "top" ∧ "middle" ≠ "bottom" ∧ "middle" ≠ "left" ∧ "middle" ≠ "right") ∧
    ((∀ tr pr s, computePlacement "middle" tr pr s 14 = none) ∧
     (updatePosition "middle" 14 true scenarioEnv Styles.initial).left = Styles.initial.left ∧
     (updatePosition "middle" 14 true scenarioEnv Styles.initial).top = Styles.initial.top ∧
     ((updatePosition "middle" 14 true scenarioEnv Styles.initial).right = Styles.initial.right ∨
       (updatePosition "middle" 14 true scenarioEnv Styles.initial).right = some StyleVal.auto) ∧
     ((updatePosition "middle" 14 true scenarioEnv Styles.initial).bottom = Styles.initial.bottom ∨
       (updatePosition "middle" 14 true scenarioEnv Styles.initial).bottom = some StyleVal.auto)) :=
  ⟨by decide,
   unrecognized_position_no_placement "middle" (by decide) 14 true scenarioEnv Styles.initial⟩

/-- A layout environment with no resolved anchor (`this._target` is
null) but an offset parent present. -/
def envNoTarget : Env := ⟨none, some ⟨0, 0, 300, 200⟩, ⟨0, 0, 60, 24⟩, 1000, 1000⟩

/-- Counterexample to C6 as stated: with an unresolved anchor,
`show()` is not a no-op — from the initial Hidden state with nonempty
content it still sets the showing flag and removes the hidden class
(only the position recomputation degrades to a no-op). -/
theorem show_with_unresolved_anchor_not_noop :
    showTooltip "bottom" 14 false envNoTarget "tip text" [] TState.initial ≠ TState.initial := by
  decide

/-- C6 (amended): a `for` id that matches nothing in the containing
root resolves to no anchor; and whenever the anchor is unresolved or
there is no offset parent, `updatePosition` performs no placement and
leaves all previously applied left/top/right/bottom styles untouched.
(`show`/`hide` do not fail, but `show` still toggles visibility.) -/
theorem unresolved_anchor_updatePosition_noop (pos : String) (off : ℚ) (fit : Bool)
    (env : Env) (st : Styles) (h : env.target = none ∨ env.offsetParent = none) :
    updatePosition pos off fit env st = st ∧
    (∀ id rootIds p, id ≠ "" → rootIds.find? (fun q => q.1 = id) = none →
      resolveTarget (some id) rootIds (some p) = Except.ok none) := by
  constructor
  · obtain ⟨tgt, op, this0, iw, ih⟩ := env
    rcases h with h | h
    · simp only at h
      subst h
      simp [updatePosition]
    · simp only at h
      subst h
      cases tgt <;> simp [updatePosition]
  · intro id rootIds p hid hfind
    simp [resolveTarget, hid, hfind]

/-- Witness for C6 (amended): no resolved anchor, and a `for` id
absent from the root's id table. -/
theorem unresolved_anchor_updatePosition_noop_witness :
    (envNoTarget.target = none ∨ envNoTarget.offsetParent = none) ∧
    (updatePosition "bottom" 14 true envNoTarget Styles.initial = Styles.initial ∧
     (∀ id rootIds p, id ≠ "" → rootIds.find? (fun q => q.1 = id) = none →
       resolveTarget (some id) rootIds (some p) = Except.ok none)) :=
  ⟨Or.inl rfl,
   unresolved_anchor_updatePosition_noop "bottom" 14 true envNoTarget Styles.initial (Or.inl rfl)⟩

/-- C7: the component never removes its listeners on lifecycle detach.
The class defines `disconnectCallback` (line 182), but the custom
elements lifecycle invokes `disconnectedCallback`, which the class does
not define — so detaching the element from the document leaves every
registration in place, for any listener state. -/
theorem detach_leaves_listeners_attached :
    "disconnectedCallback" ∉ definedLifecycleCallbacks ∧
    ∀ selfId st, detachFromDom selfId st = st := by
  constructor
  · decide
  · intro selfId st
    simp [detachFromDom, definedLifecycleCallbacks]

/-- `_removeListeners` applied to exactly the registrations
`_addListeners` created removes them all. -/
lemma removeListeners_canonical (selfId : Nat) (tgt : Option Nat) :
    removeListeners selfId ⟨tgt, canonicalRegs selfId tgt⟩ = ⟨tgt, []⟩ := by
  cases tgt <;>
    simp [removeListeners, canonicalRegs, targetEventHandlers, removeEventListener,
      List.filter]

/-- `_addListeners` starting from no registrations produces exactly the
canonical registration list. -/
lemma addListeners_empty (selfId : Nat) (nt : Option Nat) :
    addListeners selfId ⟨nt, []⟩ = ⟨nt, canonicalRegs selfId nt⟩ := by
  cases nt <;>
    simp [addListeners, canonicalRegs, targetEventHandlers, addEventListener]

/-- C8: re-resolving the anchor from any well-formed listener state
(registrations exactly those of the current anchor) leaves the
registrations exactly those of the new anchor, and no listener remains
on the old anchor once it differs from the new one and from the
tooltip itself. -/
theorem findTarget_single_active_anchor (selfId : Nat) (nt : Option Nat) (st : AnchorState)
    (hwf : st.regs = canonicalRegs selfId st.target) :
    (findTarget selfId nt st).regs = canonicalRegs selfId nt ∧
    (∀ a ev hd, st.target = some a → a ≠ selfId → nt ≠ some a →
      (a, ev, hd) ∉ (findTarget selfId nt st).regs) := by
  obtain ⟨tgt, regs⟩ := st
  simp only at hwf
  subst hwf
  have hmain : findTarget selfId nt ⟨tgt, canonicalRegs selfId tgt⟩ =
      ⟨nt, canonicalRegs selfId nt⟩ := by
    unfold findTarget
    rw [removeListeners_canonical]
    exact addListeners_empty selfId nt
  rw [hmain]
  refine ⟨rfl, ?_⟩
  intro a ev hd hta has hna hmem
  cases nt with
  | none =>
    simp [canonicalRegs] at hmem
    exact has hmem.1
  | some b =>
    simp [canonicalRegs, targetEventHandlers] at hmem
    have hba : b ≠ a := fun he => hna (by rw [he])
    rcases hmem with h | h | h | h | h | h
    · exact hba h.1.symm
    · exact hba h.1.symm
    · exact hba h.1.symm
    · exact hba h.1.symm
    · exact hba h.1.symm
    · exact has h.1

/-- Witness for C8: the anchor-switch scenario — tooltip element 0,
anchor switched from element 1 ("btnA") to element 2 ("btnB"). -/
theorem findTarget_single_active_anchor_witness :
    (AnchorState.mk (some 1) (canonicalRegs 0 (some 1))).regs =
      canonicalRegs 0 (AnchorState.mk (some 1) (canonicalRegs 0 (some 1))).target ∧
    ((findTarget 0 (some 2) ⟨some 1, canonicalRegs 0 (some 1)⟩).regs = canonicalRegs 0 (some 2) ∧
     (∀ a ev hd, (AnchorState.mk (some 1) (canonicalRegs 0 (some 1))).target = some a →
       a ≠ 0 → (some 2 : Option Nat) ≠ some a →
       (a, ev, hd) ∉ (findTarget 0 (some 2) ⟨some 1, canonicalRegs 0 (some 1)⟩).regs)) :=
  ⟨rfl, findTarget_single_active_anchor 0 (some 2) ⟨some 1, canonicalRegs 0 (some 1)⟩ rfl⟩

end ExmgTooltip
